import Mathlib

/-!
Shallow embedding of `app/component_manager.go` (kaspad).

The file models, directly from the Go source:
  * `setupIndexes` (optional acceptance index and index manager),
  * `ComponentManager.Start` / `ComponentManager.Stop` (the two `int32`
    lifecycle counters updated with `atomic.AddInt32`, modelled as `Nat`
    residues with an explicit `% 4294967296`, since an `int32` post-increment
    compares equal to `1` exactly when its unsigned residue is `1`),
  * `handleBlockDAGNotifications` and the `dag.Subscribe` callback installed
    by `setupRPC` (which panics on any error returned by the handler),
  * `maybeSeedFromDNS` (DNS / GRPC seeding effects).

Side effects (starting and stopping collaborators, logging, process exit,
seeding callbacks, RPC notifier calls) are recorded as explicit effect
traces; collaborator failures (`netAdapter.Start`, `netAdapter.Stop`, the
RPC notifier methods) are supplied by small environment records.
-/

/-- The slice of `config.Config` that `component_manager.go` reads in the
operations modelled here: `cfg.AcceptanceIndex`, `cfg.DisableDNSSeed`,
`cfg.GRPCSeed` and `cfg.DNSSeed`. -/
structure Config where
  acceptanceIndex : Bool
  disableDNSSeed : Bool
  grpcSeed : String
  dnsSeed : String
deriving DecidableEq

/-- `indexers.AcceptanceIndex` is opaque at this layer: only its presence or
absence is observable, so it is a fieldless structure. -/
structure AcceptanceIndex where
deriving DecidableEq

/-- The `indexers.Indexer` interface; the only implementation built by
`component_manager.go` is the acceptance index. -/
inductive Indexer where
  | acceptance (idx : AcceptanceIndex)
deriving DecidableEq

/-- `indexers.NewManager(indexes)` wraps the slice of indexers. -/
structure IndexManager where
  indexes : List Indexer
deriving DecidableEq

/-- `setupIndexes(cfg)` from `component_manager.go`:

  var indexes []indexers.Indexer
  var acceptanceIndex *indexers.AcceptanceIndex
  if cfg.AcceptanceIndex { acceptanceIndex = NewAcceptanceIndex(); indexes = append(indexes, acceptanceIndex) }
  if len(indexes) < 0 { return nil, nil }
  indexManager := indexers.NewManager(indexes)
  return indexManager, acceptanceIndex

The guard is `len(indexes) < 0` exactly as written in the source (on `Nat`
lengths it can never hold, just as a Go `len` is never negative). -/
def setupIndexes (cfg : Config) : Option IndexManager × Option AcceptanceIndex :=
  let indexes : List Indexer := []
  let acceptanceIndex : Option AcceptanceIndex := none
  let indexes :=
    if cfg.acceptanceIndex then indexes ++ [Indexer.acceptance AcceptanceIndex.mk]
    else indexes
  let acceptanceIndex :=
    if cfg.acceptanceIndex then some AcceptanceIndex.mk else acceptanceIndex
  if indexes.length < 0 then
    (none, none)
  else
    (some { indexes := indexes }, acceptanceIndex)

/-- C1. During construction, `setupIndexes` was claimed to return a nil index
manager and nil acceptance index when the acceptance index is disabled.  The
source guard `len(indexes) < 0` can never hold, so with the acceptance index
disabled the function still returns a (non-nil) index manager wrapping an
empty indexer slice; only the acceptance index itself is nil.  With the
acceptance index enabled it returns the manager wrapping the built index and
the index itself, as claimed.  This theorem evaluates the embedded code at
both configurations and exhibits the divergence. -/
theorem C1_setupIndexes_disabled_still_builds_manager :
    setupIndexes { acceptanceIndex := false, disableDNSSeed := false, grpcSeed := "", dnsSeed := "" }
      = (some { indexes := [] }, none)
    ∧ setupIndexes { acceptanceIndex := true, disableDNSSeed := false, grpcSeed := "", dnsSeed := "" }
      = (some { indexes := [Indexer.acceptance AcceptanceIndex.mk] }, some AcceptanceIndex.mk) :=
  ⟨rfl, rfl⟩

/-- Go `error` values: only their message is observable here. -/
abbrev GoError := String

/-- A block identifier (`daghash.Hash`); `str` models the hash's `String()`
textual form, the only operation the bridge uses. -/
structure BlockHash where
  str : String
deriving DecidableEq

/-- `blockdag.Notification`: a tagged event.  The three tags handled by the
bridge carry their payloads (`ChainChangedNotificationData` with its two
ordered hash slices, the two finality payloads with one hash each); every
other `NotificationType` value is modelled by `unknown` with its numeric
tag. -/
inductive Notification where
  | chainChanged (removedChainBlockHashes addedChainBlockHashes : List BlockHash)
  | finalityConflict (violatingBlockHash : BlockHash)
  | finalityConflictResolved (finalityBlockHash : BlockHash)
  | unknown (tag : Nat)
deriving DecidableEq

/-- A call made on the RPC manager's notifier methods, with its arguments
exactly as passed by `handleBlockDAGNotifications`. -/
inductive RPCCall where
  | notifyChainChanged (removed added : List BlockHash)
  | notifyFinalityConflict (s : String)
  | notifyFinalityConflictResolved (s : String)
deriving DecidableEq

/-- Fault model for the RPC manager: the error (if any) each notifier method
returns for given arguments. -/
structure RPCEnv where
  chainChangedResult : List BlockHash → List BlockHash → Option GoError
  finalityConflictResult : String → Option GoError
  finalityConflictResolvedResult : String → Option GoError

/-- The error the environment assigns to a given RPC call. -/
def RPCEnv.result (env : RPCEnv) : RPCCall → Option GoError
  | RPCCall.notifyChainChanged removed added => env.chainChangedResult removed added
  | RPCCall.notifyFinalityConflict s => env.finalityConflictResult s
  | RPCCall.notifyFinalityConflictResolved s => env.finalityConflictResolvedResult s

/-- `handleBlockDAGNotifications(notification, acceptanceIndex, rpcManager)`:
returns the list of RPC notifier calls it makes together with its Go
return value (`some e` for a non-nil error).  Mirrors the source `switch`:
`NTChainChanged` first checks `acceptanceIndex == nil` and returns nil;
otherwise the matching notifier is called with the payload and any error it
returns is propagated; tags outside the three cases fall through to
`return nil`. -/
def handleBlockDAGNotifications (notification : Notification)
    (acceptanceIndex : Option AcceptanceIndex) (env : RPCEnv) :
    List RPCCall × Option GoError :=
  match notification with
  | Notification.chainChanged removed added =>
    match acceptanceIndex with
    | none => ([], none)
    | some _ =>
      let c := RPCCall.notifyChainChanged removed added
      match env.chainChangedResult removed added with
      | some e => ([c], some e)
      | none => ([c], none)
  | Notification.finalityConflict violating =>
    let c := RPCCall.notifyFinalityConflict violating.str
    match env.finalityConflictResult violating.str with
    | some e => ([c], some e)
    | none => ([c], none)
  | Notification.finalityConflictResolved finality =>
    let c := RPCCall.notifyFinalityConflictResolved finality.str
    match env.finalityConflictResolvedResult finality.str with
    | some e => ([c], some e)
    | none => ([c], none)
  | Notification.unknown _ => ([], none)

/-- Outcome of one invocation of the subscription callback: normal return,
or an unrecovered `panic(err)` (which terminates the process). -/
inductive CallbackOutcome where
  | ok
  | panicked (e : GoError)
deriving DecidableEq

/-- The callback `setupRPC` registers via `dag.Subscribe`:

  err := handleBlockDAGNotifications(notification, acceptanceIndex, rpcManager)
  if err != nil { panic(err) }

It returns the RPC calls made and whether it panicked. -/
def subscriptionCallback (acceptanceIndex : Option AcceptanceIndex) (env : RPCEnv)
    (notification : Notification) : List RPCCall × CallbackOutcome :=
  let r := handleBlockDAGNotifications notification acceptanceIndex env
  (r.1,
    match r.2 with
    | some e => CallbackOutcome.panicked e
    | none => CallbackOutcome.ok)

/-- C4. For every `ChainChanged` notification delivered to the bridge: with
the acceptance index present, exactly one `NotifyChainChanged` call is made,
with the removed and added hash sequences passed verbatim and in order
(whatever the RPC layer then returns); with the acceptance index absent, no
RPC call is made and the handler returns nil, so the callback succeeds as a
no-op. -/
theorem C4_chainChanged_forwarded_iff_acceptance_index
    (removed added : List BlockHash) (idx : AcceptanceIndex) (env : RPCEnv) :
    (handleBlockDAGNotifications (Notification.chainChanged removed added) (some idx) env).1
      = [RPCCall.notifyChainChanged removed added]
    ∧ handleBlockDAGNotifications (Notification.chainChanged removed added) none env
      = ([], none)
    ∧ subscriptionCallback none env (Notification.chainChanged removed added)
      = ([], CallbackOutcome.ok) := by
  refine ⟨?_, rfl, rfl⟩
  cases h : env.chainChangedResult removed added <;>
    simp [handleBlockDAGNotifications, h]

/-- C5. For every notification delivered to the bridge's subscription
callback: if the handler makes a forwarding call `c` to the RPC layer and
the RPC layer returns an error `e` for `c`, then the callback panics with
`e` (the wrapper installed by `setupRPC` calls `panic(err)`), terminating
the process; the error is never absorbed. -/
theorem C5_forwarding_error_panics (n : Notification)
    (acceptanceIndex : Option AcceptanceIndex) (env : RPCEnv) (c : RPCCall) (e : GoError)
    (hmem : c ∈ (handleBlockDAGNotifications n acceptanceIndex env).1)
    (herr : env.result c = some e) :
    (subscriptionCallback acceptanceIndex env n).2 = CallbackOutcome.panicked e := by
  cases n with
  | chainChanged removed added =>
    cases acceptanceIndex with
    | none => simp [handleBlockDAGNotifications] at hmem
    | some idx =>
      unfold subscriptionCallback handleBlockDAGNotifications
      unfold handleBlockDAGNotifications at hmem
      cases h : env.chainChangedResult removed added with
      | some e2 =>
        simp [h] at hmem ⊢
        subst hmem
        simp [RPCEnv.result, h] at herr
        exact herr
      | none =>
        simp [h] at hmem
        subst hmem
        simp [RPCEnv.result, h] at herr
  | finalityConflict violating =>
    unfold subscriptionCallback handleBlockDAGNotifications
    unfold handleBlockDAGNotifications at hmem
    cases h : env.finalityConflictResult violating.str with
    | some e2 =>
      simp [h] at hmem ⊢
      subst hmem
      simp [RPCEnv.result, h] at herr
      exact herr
    | none =>
      simp [h] at hmem
      subst hmem
      simp [RPCEnv.result, h] at herr
  | finalityConflictResolved finality =>
    unfold subscriptionCallback handleBlockDAGNotifications
    unfold handleBlockDAGNotifications at hmem
    cases h : env.finalityConflictResolvedResult finality.str with
    | some e2 =>
      simp [h] at hmem ⊢
      subst hmem
      simp [RPCEnv.result, h] at herr
      exact herr
    | none =>
      simp [h] at hmem
      subst hmem
      simp [RPCEnv.result, h] at herr
  | unknown tag =>
    simp [handleBlockDAGNotifications] at hmem

/-- Witness for C5: a concrete faulty RPC environment in which forwarding a
finality-conflict notification fails, and the callback panics with that
error. -/
theorem C5_forwarding_error_panics_witness :
    (subscriptionCallback none
      { chainChangedResult := fun _ _ => none,
        finalityConflictResult := fun s => some ("rpc failure: " ++ s),
        finalityConflictResolvedResult := fun _ => none }
      (Notification.finalityConflict { str := "deadbeef" })).2
      = CallbackOutcome.panicked "rpc failure: deadbeef" :=
  C5_forwarding_error_panics (Notification.finalityConflict { str := "deadbeef" }) none
    { chainChangedResult := fun _ _ => none,
      finalityConflictResult := fun s => some ("rpc failure: " ++ s),
      finalityConflictResolvedResult := fun _ => none }
    (RPCCall.notifyFinalityConflict "deadbeef") "rpc failure: deadbeef"
    (by simp [handleBlockDAGNotifications]) rfl

/-- C7. A notification whose tag is none of the three handled ones results
in no RPC notifier call, a nil return from the handler, and a normal (no
panic) return from the subscription callback. -/
theorem C7_unknown_tag_noop (tag : Nat) (acceptanceIndex : Option AcceptanceIndex)
    (env : RPCEnv) :
    handleBlockDAGNotifications (Notification.unknown tag) acceptanceIndex env = ([], none)
    ∧ subscriptionCallback acceptanceIndex env (Notification.unknown tag)
      = ([], CallbackOutcome.ok) := by
  exact ⟨rfl, rfl⟩

/-- Observable side effects of `ComponentManager.Start` and
`ComponentManager.Stop`: calls on collaborators, log lines, and
`panics.Exit` (which logs its message and terminates the process). -/
inductive Effect where
  | logTrace (msg : String)
  | logInfo (msg : String)
  | logWarn (msg : String)
  | logError (msg : String)
  | netAdapterStart
  | exitWithLog (msg : String)
  | maybeSeedFromDNSCall
  | connManagerStart
  | connManagerStop
  | netAdapterStop
deriving DecidableEq

/-- Fault model for the collaborators used by `Start` and `Stop`: the error
(if any) returned by `netAdapter.Start()` and by `netAdapter.Stop()`.
(`connectionManager.Start`/`Stop` return nothing at this layer.) -/
structure StartStopEnv where
  netAdapterStartError : Option GoError
  netAdapterStopError : Option GoError

/-- The lifecycle state of a `ComponentManager`: the two `int32` counters
`started, shutdown`, stored as their unsigned residues mod `2^32`.  An
`atomic.AddInt32(&c, 1)` result compares equal to the `int32` literal `1`
exactly when the updated residue is `1`. -/
structure ComponentManager where
  started : Nat
  shutdown : Nat
deriving DecidableEq

/-- `ComponentManager.Start`:

  if atomic.AddInt32(&a.started, 1) != 1 { return }
  log.Trace("Starting kaspad")
  err := a.netAdapter.Start()
  if err != nil { panics.Exit(log, fmt.Sprintf("Error starting the net adapter: %+v", err)) }
  a.maybeSeedFromDNS()
  a.connectionManager.Start()

Returns the updated state and the trace of effects this call performs.
`panics.Exit` terminates the process, so in the error branch the trace ends
at the exit effect and neither seeding nor the connection-manager start
appears. -/
def ComponentManager.start (env : StartStopEnv) (a : ComponentManager) :
    ComponentManager × List Effect :=
  if (a.started + 1) % 4294967296 ≠ 1 then
    ({ a with started := (a.started + 1) % 4294967296 }, [])
  else
    match env.netAdapterStartError with
    | some errText =>
      ({ a with started := (a.started + 1) % 4294967296 },
       [Effect.logTrace "Starting kaspad", Effect.netAdapterStart,
        Effect.exitWithLog ("Error starting the net adapter: " ++ errText)])
    | none =>
      ({ a with started := (a.started + 1) % 4294967296 },
       [Effect.logTrace "Starting kaspad", Effect.netAdapterStart,
        Effect.maybeSeedFromDNSCall, Effect.connManagerStart])

/-- `ComponentManager.Stop`:

  if atomic.AddInt32(&a.shutdown, 1) != 1 {
    log.Infof("Kaspad is already in the process of shutting down"); return }
  log.Warnf("Kaspad shutting down")
  a.connectionManager.Stop()
  err := a.netAdapter.Stop()
  if err != nil { log.Errorf("Error stopping the net adapter: %+v", err) }
  return

Returns the updated state and the trace of effects this call performs. -/
def ComponentManager.stop (env : StartStopEnv) (a : ComponentManager) :
    ComponentManager × List Effect :=
  if (a.shutdown + 1) % 4294967296 ≠ 1 then
    ({ a with shutdown := (a.shutdown + 1) % 4294967296 },
     [Effect.logInfo "Kaspad is already in the process of shutting down"])
  else
    match env.netAdapterStopError with
    | some errText =>
      ({ a with shutdown := (a.shutdown + 1) % 4294967296 },
       [Effect.logWarn "Kaspad shutting down", Effect.connManagerStop,
        Effect.netAdapterStop,
        Effect.logError ("Error stopping the net adapter: " ++ errText)])
    | none =>
      ({ a with shutdown := (a.shutdown + 1) % 4294967296 },
       [Effect.logWarn "Kaspad shutting down", Effect.connManagerStop,
        Effect.netAdapterStop])

/-- `n` successive `Start` calls on a freshly constructed manager (both
counters zero), with the cumulative effect trace.  Concurrent callers of
`Start` are serialized by the atomic increment, so any interleaving of `n`
calls produces this counter sequence and this multiset of per-call traces;
the cumulative trace concatenates them in increment order. -/
def repeatStarts (env : StartStopEnv) : Nat → ComponentManager × List Effect
  | 0 => ({ started := 0, shutdown := 0 }, [])
  | n + 1 =>
    let p := repeatStarts env n
    let q := p.1.start env
    (q.1, p.2 ++ q.2)

/-- `n` successive `Stop` calls on a freshly constructed manager, with the
cumulative effect trace. -/
def repeatStops (env : StartStopEnv) : Nat → ComponentManager × List Effect
  | 0 => ({ started := 0, shutdown := 0 }, [])
  | n + 1 =>
    let p := repeatStops env n
    let q := p.1.stop env
    (q.1, p.2 ++ q.2)

/-- Number of occurrences of `e` in a list. -/
def countOcc {α : Type} [DecidableEq α] (e : α) : List α → Nat
  | [] => 0
  | x :: xs => (if x = e then 1 else 0) + countOcc e xs

theorem countOcc_append {α : Type} [DecidableEq α] (e : α) (l₁ l₂ : List α) :
    countOcc e (l₁ ++ l₂) = countOcc e l₁ + countOcc e l₂ := by
  induction l₁ with
  | nil => simp [countOcc]
  | cons x xs ih => simp [countOcc, ih]; omega

/-- How many of the first `n` calls saw a post-increment residue of `1`:
the number of `k ∈ [1..n]` with `k % 2^32 = 1`. -/
def onesCount : Nat → Nat
  | 0 => 0
  | n + 1 => onesCount n + (if (n + 1) % 4294967296 = 1 then 1 else 0)

theorem ComponentManager.start_fst (env : StartStopEnv) (a : ComponentManager) :
    (a.start env).1 = { a with started := (a.started + 1) % 4294967296 } := by
  unfold ComponentManager.start
  split
  · rfl
  · cases env.netAdapterStartError <;> rfl

theorem ComponentManager.start_trace_skip (env : StartStopEnv) (a : ComponentManager)
    (h : (a.started + 1) % 4294967296 ≠ 1) :
    (a.start env).2 = [] := by
  simp [ComponentManager.start, h]

theorem ComponentManager.start_trace_claiming_ok (env : StartStopEnv) (a : ComponentManager)
    (henv : env.netAdapterStartError = none) (h : (a.started + 1) % 4294967296 = 1) :
    (a.start env).2 = [Effect.logTrace "Starting kaspad", Effect.netAdapterStart,
      Effect.maybeSeedFromDNSCall, Effect.connManagerStart] := by
  simp [ComponentManager.start, henv, h]

theorem ComponentManager.start_trace_claiming_err (env : StartStopEnv) (a : ComponentManager)
    (e : GoError) (henv : env.netAdapterStartError = some e)
    (h : (a.started + 1) % 4294967296 = 1) :
    (a.start env).2 = [Effect.logTrace "Starting kaspad", Effect.netAdapterStart,
      Effect.exitWithLog ("Error starting the net adapter: " ++ e)] := by
  simp [ComponentManager.start, henv, h]

theorem ComponentManager.stop_fst (env : StartStopEnv) (a : ComponentManager) :
    (a.stop env).1 = { a with shutdown := (a.shutdown + 1) % 4294967296 } := by
  unfold ComponentManager.stop
  split
  · rfl
  · cases env.netAdapterStopError <;> rfl

theorem ComponentManager.stop_trace_skip (env : StartStopEnv) (a : ComponentManager)
    (h : (a.shutdown + 1) % 4294967296 ≠ 1) :
    (a.stop env).2 = [Effect.logInfo "Kaspad is already in the process of shutting down"] := by
  simp [ComponentManager.stop, h]

theorem ComponentManager.stop_trace_claiming (env : StartStopEnv) (a : ComponentManager)
    (h : (a.shutdown + 1) % 4294967296 = 1) :
    (a.stop env).2 = [Effect.logWarn "Kaspad shutting down", Effect.connManagerStop,
        Effect.netAdapterStop]
      ++ (match env.netAdapterStopError with
          | some e => [Effect.logError ("Error stopping the net adapter: " ++ e)]
          | none => []) := by
  cases henv : env.netAdapterStopError <;> simp [ComponentManager.stop, henv, h]

theorem repeatStarts_started (env : StartStopEnv) (n : Nat) :
    (repeatStarts env n).1.started = n % 4294967296 := by
  induction n with
  | zero => simp [repeatStarts]
  | succ n ih =>
    have h : (repeatStarts env (n + 1)).1 = ((repeatStarts env n).1.start env).1 := rfl
    rw [h, ComponentManager.start_fst]
    simp only []
    rw [ih]
    omega

theorem repeatStops_shutdown (env : StartStopEnv) (n : Nat) :
    (repeatStops env n).1.shutdown = n % 4294967296 := by
  induction n with
  | zero => simp [repeatStops]
  | succ n ih =>
    have h : (repeatStops env (n + 1)).1 = ((repeatStops env n).1.stop env).1 := rfl
    rw [h, ComponentManager.stop_fst]
    simp only []
    rw [ih]
    omega

theorem onesCount_succ (n : Nat) :
    onesCount (n + 1) = onesCount n + (if (n + 1) % 4294967296 = 1 then 1 else 0) := rfl

theorem onesCount_eq_one (n : Nat) (h1 : 1 ≤ n) (h2 : n ≤ 4294967296) :
    onesCount n = 1 := by
  induction n with
  | zero => omega
  | succ n ih =>
    rw [onesCount_succ]
    by_cases h0 : n = 0
    · subst h0
      have hm : (0 + 1) % 4294967296 = 1 := by omega
      simp [onesCount, hm]
    · have ihv := ih (by omega) (by omega)
      rw [ihv]
      have hm : (n + 1) % 4294967296 ≠ 1 := by omega
      simp [hm]

theorem onesCount_wraparound : onesCount (4294967296 + 1) = 2 := by
  rw [onesCount_succ, onesCount_eq_one 4294967296 (by omega) (by omega)]
  have hm : (4294967296 + 1) % 4294967296 = 1 := by omega
  simp [hm]

theorem repeatStarts_count (env : StartStopEnv) (henv : env.netAdapterStartError = none)
    (e : Effect)
    (hbody : countOcc e [Effect.logTrace "Starting kaspad", Effect.netAdapterStart,
      Effect.maybeSeedFromDNSCall, Effect.connManagerStart] = 1) :
    ∀ n, countOcc e (repeatStarts env n).2 = onesCount n := by
  intro n
  induction n with
  | zero => simp [repeatStarts, countOcc, onesCount]
  | succ n ih =>
    have hsplit : (repeatStarts env (n + 1)).2
        = (repeatStarts env n).2 ++ ((repeatStarts env n).1.start env).2 := rfl
    rw [hsplit, countOcc_append, ih, onesCount_succ]
    by_cases hc : (n + 1) % 4294967296 = 1
    · have h1 : ((repeatStarts env n).1.started + 1) % 4294967296 = 1 := by
        rw [repeatStarts_started]; omega
      rw [ComponentManager.start_trace_claiming_ok env _ henv h1, hbody]
      simp [hc]
    · have h1 : ((repeatStarts env n).1.started + 1) % 4294967296 ≠ 1 := by
        rw [repeatStarts_started]; omega
      rw [ComponentManager.start_trace_skip env _ h1]
      simp [countOcc, hc]

theorem repeatStops_count (env : StartStopEnv) (e : Effect)
    (he : e = Effect.connManagerStop ∨ e = Effect.netAdapterStop) :
    ∀ n, countOcc e (repeatStops env n).2 = onesCount n := by
  intro n
  induction n with
  | zero => simp [repeatStops, countOcc, onesCount]
  | succ n ih =>
    have hsplit : (repeatStops env (n + 1)).2
        = (repeatStops env n).2 ++ ((repeatStops env n).1.stop env).2 := rfl
    rw [hsplit, countOcc_append, ih, onesCount_succ]
    by_cases hc : (n + 1) % 4294967296 = 1
    · have h1 : ((repeatStops env n).1.shutdown + 1) % 4294967296 = 1 := by
        rw [repeatStops_shutdown]; omega
      rw [ComponentManager.stop_trace_claiming env _ h1, countOcc_append]
      rcases he with he | he <;> subst he <;>
        cases henv : env.netAdapterStopError <;> simp [countOcc, hc]
    · have h1 : ((repeatStops env n).1.shutdown + 1) % 4294967296 ≠ 1 := by
        rw [repeatStops_shutdown]; omega
      rw [ComponentManager.stop_trace_skip env _ h1]
      rcases he with he | he <;> subst he <;> simp [countOcc, hc]

/-- C2 (amended).  For every call to `Start`, the side-effecting body
executes iff the post-increment value of the `started` counter equals `1`
(equivalently, the call's effect trace is empty iff the post-increment
residue differs from `1`); every caller for which the post-increment value
is not `1` returns immediately with no effect.  Consequently, across any
number `n` of `Start` calls with `1 ≤ n ≤ 2^32` (and a transport that
starts without error), the transport-start and connection-manager-start
side effects each execute exactly once.  The bound is forced by the source:
the counter is an `int32`, which wraps after `2^32` increments, so the
`(2^32+1)`-th call sees a post-increment value of `1` again and re-executes
the body (see the counterexample theorem). -/
theorem C2_start_exactly_once_bounded :
    (∀ (env : StartStopEnv) (a : ComponentManager),
      (a.start env).2 = [] ↔ (a.started + 1) % 4294967296 ≠ 1)
    ∧ (∀ (env : StartStopEnv), env.netAdapterStartError = none →
        ∀ n, 1 ≤ n → n ≤ 4294967296 →
          countOcc Effect.netAdapterStart (repeatStarts env n).2 = 1
          ∧ countOcc Effect.connManagerStart (repeatStarts env n).2 = 1) := by
  constructor
  · intro env a
    by_cases h : (a.started + 1) % 4294967296 = 1
    · constructor
      · intro htr
        exfalso
        rcases henv : env.netAdapterStartError with _ | e
        · rw [ComponentManager.start_trace_claiming_ok env a henv h] at htr
          simp at htr
        · rw [ComponentManager.start_trace_claiming_err env a e henv h] at htr
          simp at htr
      · intro hne
        exact absurd h hne
    · constructor
      · intro _
        exact h
      · intro _
        exact ComponentManager.start_trace_skip env a h
  · intro env henv n h1 h2
    constructor
    · rw [repeatStarts_count env henv Effect.netAdapterStart (by decide) n]
      exact onesCount_eq_one n h1 h2
    · rw [repeatStarts_count env henv Effect.connManagerStart (by decide) n]
      exact onesCount_eq_one n h1 h2

/-- Witness for C2: with a healthy transport, one `Start` call performs the
transport start and the connection-manager start exactly once. -/
theorem C2_start_exactly_once_bounded_witness :
    countOcc Effect.netAdapterStart
        (repeatStarts { netAdapterStartError := none, netAdapterStopError := none } 1).2 = 1
    ∧ countOcc Effect.connManagerStart
        (repeatStarts { netAdapterStartError := none, netAdapterStopError := none } 1).2 = 1 :=
  C2_start_exactly_once_bounded.2
    { netAdapterStartError := none, netAdapterStopError := none } rfl 1 (by decide) (by decide)

/-- Counterexample to C2 as stated ("across any number of Start calls the
side effects execute exactly once"): the `started` counter is an `int32`,
so after `2^32` increments it has wrapped to `0` and the `(2^32+1)`-th call
again sees a post-increment value of `1` and re-runs the body — the
transport-start side effect has then executed twice. -/
theorem C2_start_counterexample :
    countOcc Effect.netAdapterStart
      (repeatStarts { netAdapterStartError := none, netAdapterStopError := none }
        (4294967296 + 1)).2 = 2 := by
  rw [repeatStarts_count { netAdapterStartError := none, netAdapterStopError := none } rfl
    Effect.netAdapterStart (by decide) (4294967296 + 1)]
  exact onesCount_wraparound

/-- C3 (amended).  The caller whose post-increment of the `shutdown` counter
equals `1` executes the shutdown body, which stops the connection manager
first and only afterwards stops the network transport (the trace lists
`connManagerStop` strictly before `netAdapterStop`); every caller whose
post-increment is not `1` logs the already-shutting-down message and
returns without either stop side effect.  Consequently, across any number
`n` of `Stop` calls with `1 ≤ n ≤ 2^32`, the connection-manager-stop and
transport-stop side effects each execute exactly once.  The bound is forced
by the source: the `int32` counter wraps after `2^32` increments, so the
`(2^32+1)`-th caller sees a post-increment value of `1` again and
re-executes the body (see the counterexample theorem). -/
theorem C3_stop_order_and_exactly_once_bounded :
    (∀ (env : StartStopEnv) (a : ComponentManager),
      (a.shutdown + 1) % 4294967296 = 1 →
        (a.stop env).2 = [Effect.logWarn "Kaspad shutting down", Effect.connManagerStop,
            Effect.netAdapterStop]
          ++ (match env.netAdapterStopError with
              | some e => [Effect.logError ("Error stopping the net adapter: " ++ e)]
              | none => []))
    ∧ (∀ (env : StartStopEnv) (a : ComponentManager),
        (a.shutdown + 1) % 4294967296 ≠ 1 →
          (a.stop env).2 = [Effect.logInfo "Kaspad is already in the process of shutting down"])
    ∧ (∀ (env : StartStopEnv) (n : Nat), 1 ≤ n → n ≤ 4294967296 →
        countOcc Effect.connManagerStop (repeatStops env n).2 = 1
        ∧ countOcc Effect.netAdapterStop (repeatStops env n).2 = 1) := by
  refine ⟨ComponentManager.stop_trace_claiming, ComponentManager.stop_trace_skip, ?_⟩
  intro env n h1 h2
  constructor
  · rw [repeatStops_count env Effect.connManagerStop (Or.inl rfl) n]
    exact onesCount_eq_one n h1 h2
  · rw [repeatStops_count env Effect.netAdapterStop (Or.inr rfl) n]
    exact onesCount_eq_one n h1 h2

/-- Witness for C3: on a fresh manager the first `Stop` stops the connection
manager and then the transport; after two `Stop` calls each stop side effect
has still executed exactly once. -/
theorem C3_stop_order_and_exactly_once_bounded_witness :
    (ComponentManager.stop { netAdapterStartError := none, netAdapterStopError := none }
        { started := 0, shutdown := 0 }).2
      = [Effect.logWarn "Kaspad shutting down", Effect.connManagerStop, Effect.netAdapterStop]
    ∧ countOcc Effect.connManagerStop
        (repeatStops { netAdapterStartError := none, netAdapterStopError := none } 2).2 = 1
    ∧ countOcc Effect.netAdapterStop
        (repeatStops { netAdapterStartError := none, netAdapterStopError := none } 2).2 = 1 :=
  ⟨C3_stop_order_and_exactly_once_bounded.1
      { netAdapterStartError := none, netAdapterStopError := none }
      { started := 0, shutdown := 0 } (by decide),
    (C3_stop_order_and_exactly_once_bounded.2.2
      { netAdapterStartError := none, netAdapterStopError := none } 2 (by decide) (by decide)).1,
    (C3_stop_order_and_exactly_once_bounded.2.2
      { netAdapterStartError := none, netAdapterStopError := none } 2 (by decide) (by decide)).2⟩

/-- Counterexample to C3 as stated ("every later caller observes the
already-stopping condition and returns without re-executing either stop
side effect"): the `int32` `shutdown` counter wraps after `2^32`
increments, so the `(2^32+1)`-th caller's post-increment is `1` again and
the shutdown body runs a second time — the connection-manager-stop side
effect has then executed twice. -/
theorem C3_stop_counterexample :
    countOcc Effect.connManagerStop
      (repeatStops { netAdapterStartError := none, netAdapterStopError := none }
        (4294967296 + 1)).2 = 2 := by
  rw [repeatStops_count { netAdapterStartError := none, netAdapterStopError := none }
    Effect.connManagerStop (Or.inl rfl) (4294967296 + 1)]
  exact onesCount_wraparound

/-- C6.  If, during the first `Start` (the `started` counter is `0`),
starting the network transport returns an error, the trace of that call is
exactly: the startup log line, the transport-start attempt, and
`panics.Exit` logging the cause — and the process terminates there.  In
particular the seed coordinator is never invoked and the connection manager
is never started in that execution. -/
theorem C6_transport_start_error_fatal (e : GoError) (sh : Nat) (stopErr : Option GoError) :
    (ComponentManager.start { netAdapterStartError := some e, netAdapterStopError := stopErr }
        { started := 0, shutdown := sh }).2
      = [Effect.logTrace "Starting kaspad", Effect.netAdapterStart,
         Effect.exitWithLog ("Error starting the net adapter: " ++ e)]
    ∧ countOcc Effect.maybeSeedFromDNSCall
        (ComponentManager.start { netAdapterStartError := some e, netAdapterStopError := stopErr }
          { started := 0, shutdown := sh }).2 = 0
    ∧ countOcc Effect.connManagerStart
        (ComponentManager.start { netAdapterStartError := some e, netAdapterStopError := stopErr }
          { started := 0, shutdown := sh }).2 = 0 := by
  have htr := ComponentManager.start_trace_claiming_err
    { netAdapterStartError := some e, netAdapterStopError := stopErr }
    { started := 0, shutdown := sh } e rfl rfl
  refine ⟨htr, ?_, ?_⟩ <;> rw [htr] <;> simp [countOcc]

/-- C8.  If, during the claiming `Stop` call, stopping the network transport
returns an error, the error is only logged: the trace is the full shutdown
body (connection-manager stop, transport stop) followed by the error log
line, the process is not terminated (no exit effect occurs), and `Stop`
returns nothing to its caller. -/
theorem C8_transport_stop_error_nonfatal (e : GoError) (startedVal : Nat)
    (startErr : Option GoError) :
    (ComponentManager.stop { netAdapterStartError := startErr, netAdapterStopError := some e }
        { started := startedVal, shutdown := 0 }).2
      = [Effect.logWarn "Kaspad shutting down", Effect.connManagerStop, Effect.netAdapterStop,
         Effect.logError ("Error stopping the net adapter: " ++ e)]
    ∧ (∀ m, countOcc (Effect.exitWithLog m)
        (ComponentManager.stop { netAdapterStartError := startErr, netAdapterStopError := some e }
          { started := startedVal, shutdown := 0 }).2 = 0) := by
  have htr := ComponentManager.stop_trace_claiming
    { netAdapterStartError := startErr, netAdapterStopError := some e }
    { started := startedVal, shutdown := 0 } rfl
  simp only [] at htr
  constructor
  · rw [htr]
    rfl
  · intro m
    rw [htr]
    simp [countOcc]

/-- C10.  Calling `Stop` on a `ComponentManager` that was never started
(the `started` counter is `0` — and indeed any `started` value, since
`Stop` reads only the `shutdown` counter) executes the full shutdown body:
it stops the connection manager and then the transport, logging a stop
error if the transport reports one. -/
theorem C10_stop_without_start (startedVal : Nat) (env : StartStopEnv) :
    (ComponentManager.stop env { started := startedVal, shutdown := 0 }).2
      = [Effect.logWarn "Kaspad shutting down", Effect.connManagerStop, Effect.netAdapterStop]
        ++ (match env.netAdapterStopError with
            | some e => [Effect.logError ("Error stopping the net adapter: " ++ e)]
            | none => []) :=
  ComponentManager.stop_trace_claiming env { started := startedVal, shutdown := 0 } rfl

/-- `appmessage.NetAddress`: a candidate peer address (only identity
matters here). -/
structure NetAddress where
  ip : String
  port : Nat
deriving DecidableEq

/-- `appmessage.SFNodeNetwork`, the node-network service-capability bit
(`1 << 0`). -/
def SFNodeNetwork : Nat := 1

/-- Observable effects of the seed coordinator: initiating a DNS seed
lookup (`dnsseed.SeedFromDNS` with the configured seed, the requested
service-flag bits, and `includeAllSubnetworks`), initiating a GRPC seed
lookup (`dnsseed.SeedFromGRPC`, same extra arguments), and a callback
invocation `addressManager.AddAddresses(batch...)` merging one returned
batch into the address book. -/
inductive SeedEffect where
  | seedFromDNS (dnsSeed : String) (serviceFlag : Nat) (includeAllSubnetworks : Bool)
  | seedFromGRPC (grpcSeed : String) (serviceFlag : Nat) (includeAllSubnetworks : Bool)
  | addAddresses (batch : List NetAddress)
deriving DecidableEq

/-- `ComponentManager.maybeSeedFromDNS`:

  if !a.cfg.DisableDNSSeed {
    dnsseed.SeedFromDNS(a.cfg.NetParams(), a.cfg.DNSSeed, appmessage.SFNodeNetwork, false, nil,
      a.cfg.Lookup, func(addresses) { a.addressManager.AddAddresses(addresses...) }) }
  if a.cfg.GRPCSeed != "" {
    dnsseed.SeedFromGRPC(a.cfg.NetParams(), a.cfg.GRPCSeed, appmessage.SFNodeNetwork, false, nil,
      func(addresses) { a.addressManager.AddAddresses(addresses...) }) }

The two lookups run asynchronously; `dnsBatches` and `grpcBatches` are the
address batches each source ends up delivering to its callback.  The trace
lists DNS effects then GRPC effects; the callbacks of the two sources are
independent and their relative order is immaterial to the properties proved
here (lookup-performed-iff-configured, flag requested, batch merged).  The
`NetParams()`, nil-subnetwork and `cfg.Lookup` arguments carry no observable
behaviour at this layer and are omitted. -/
def maybeSeedFromDNS (cfg : Config) (dnsBatches grpcBatches : List (List NetAddress)) :
    List SeedEffect :=
  (if !cfg.disableDNSSeed then
      SeedEffect.seedFromDNS cfg.dnsSeed SFNodeNetwork false
        :: dnsBatches.map (fun addresses => SeedEffect.addAddresses addresses)
    else [])
  ++ (if cfg.grpcSeed ≠ "" then
      SeedEffect.seedFromGRPC cfg.grpcSeed SFNodeNetwork false
        :: grpcBatches.map (fun addresses => SeedEffect.addAddresses addresses)
    else [])

/-- C9.  When the seed coordinator runs: a DNS seed lookup is performed iff
DNS seeding is enabled (`!cfg.DisableDNSSeed`); a GRPC seed lookup is
performed iff a GRPC seed endpoint is configured (non-empty); every lookup
that occurs requests peers advertising the node-network capability bit
(`SFNodeNetwork`); and every batch of addresses returned by an enabled
source is merged into the address book via `AddAddresses`. -/
theorem C9_seed_coordinator (cfg : Config) (dnsBatches grpcBatches : List (List NetAddress)) :
    (SeedEffect.seedFromDNS cfg.dnsSeed SFNodeNetwork false
        ∈ maybeSeedFromDNS cfg dnsBatches grpcBatches ↔ cfg.disableDNSSeed = false)
    ∧ (SeedEffect.seedFromGRPC cfg.grpcSeed SFNodeNetwork false
        ∈ maybeSeedFromDNS cfg dnsBatches grpcBatches ↔ cfg.grpcSeed ≠ "")
    ∧ (∀ s f b, SeedEffect.seedFromDNS s f b ∈ maybeSeedFromDNS cfg dnsBatches grpcBatches →
        f = SFNodeNetwork)
    ∧ (∀ s f b, SeedEffect.seedFromGRPC s f b ∈ maybeSeedFromDNS cfg dnsBatches grpcBatches →
        f = SFNodeNetwork)
    ∧ (cfg.disableDNSSeed = false → ∀ batch ∈ dnsBatches,
        SeedEffect.addAddresses batch ∈ maybeSeedFromDNS cfg dnsBatches grpcBatches)
    ∧ (cfg.grpcSeed ≠ "" → ∀ batch ∈ grpcBatches,
        SeedEffect.addAddresses batch ∈ maybeSeedFromDNS cfg dnsBatches grpcBatches) := by
  by_cases hd : cfg.disableDNSSeed
  · by_cases hg : cfg.grpcSeed = ""
    · simp [maybeSeedFromDNS, hd, hg]
    · simp [maybeSeedFromDNS, hd, hg]
  · by_cases hg : cfg.grpcSeed = ""
    · simp [maybeSeedFromDNS, hd, hg]
    · simp [maybeSeedFromDNS, hd, hg]
      exact ⟨fun batch hb => Or.inl hb, fun batch hb => Or.inr hb⟩

/-- Witness for C9: with DNS seeding enabled and a GRPC endpoint
configured, both lookups occur with the node-network flag, and a returned
DNS batch is merged into the address book. -/
theorem C9_seed_coordinator_witness :
    SeedEffect.seedFromDNS "dnsseed.example" SFNodeNetwork false
      ∈ maybeSeedFromDNS
          { acceptanceIndex := false, disableDNSSeed := false,
            grpcSeed := "seeder.example:16110", dnsSeed := "dnsseed.example" }
          [[{ ip := "10.0.0.1", port := 16111 }, { ip := "10.0.0.2", port := 16111 }]]
          [[{ ip := "10.0.0.3", port := 16111 }]]
    ∧ SeedEffect.seedFromGRPC "seeder.example:16110" SFNodeNetwork false
      ∈ maybeSeedFromDNS
          { acceptanceIndex := false, disableDNSSeed := false,
            grpcSeed := "seeder.example:16110", dnsSeed := "dnsseed.example" }
          [[{ ip := "10.0.0.1", port := 16111 }, { ip := "10.0.0.2", port := 16111 }]]
          [[{ ip := "10.0.0.3", port := 16111 }]]
    ∧ SeedEffect.addAddresses
        [{ ip := "10.0.0.1", port := 16111 }, { ip := "10.0.0.2", port := 16111 }]
      ∈ maybeSeedFromDNS
          { acceptanceIndex := false, disableDNSSeed := false,
            grpcSeed := "seeder.example:16110", dnsSeed := "dnsseed.example" }
          [[{ ip := "10.0.0.1", port := 16111 }, { ip := "10.0.0.2", port := 16111 }]]
          [[{ ip := "10.0.0.3", port := 16111 }]] :=
  ⟨(C9_seed_coordinator
      { acceptanceIndex := false, disableDNSSeed := false,
        grpcSeed := "seeder.example:16110", dnsSeed := "dnsseed.example" }
      [[{ ip := "10.0.0.1", port := 16111 }, { ip := "10.0.0.2", port := 16111 }]]
      [[{ ip := "10.0.0.3", port := 16111 }]]).1.mpr rfl,
   (C9_seed_coordinator
      { acceptanceIndex := false, disableDNSSeed := false,
        grpcSeed := "seeder.example:16110", dnsSeed := "dnsseed.example" }
      [[{ ip := "10.0.0.1", port := 16111 }, { ip := "10.0.0.2", port := 16111 }]]
      [[{ ip := "10.0.0.3", port := 16111 }]]).2.1.mpr (by decide),
   (C9_seed_coordinator
      { acceptanceIndex := false, disableDNSSeed := false,
        grpcSeed := "seeder.example:16110", dnsSeed := "dnsseed.example" }
      [[{ ip := "10.0.0.1", port := 16111 }, { ip := "10.0.0.2", port := 16111 }]]
      [[{ ip := "10.0.0.3", port := 16111 }]]).2.2.2.2.1 rfl
     [{ ip := "10.0.0.1", port := 16111 }, { ip := "10.0.0.2", port := 16111 }] (by decide)⟩
